import Mathlib

/-!
Shallow embedding of `script/pipeline_aws.py`, a linear ETL script that
downloads six annual CSV files, parses each into a table keyed by the year
token of its filename, serializes each table and uploads it to an object
store under the key `bronze/dados_{year}.parquet`, and finally lists the
bucket contents.

External effects (HTTP download, object-store PUT) are modelled by an
oracle `World`; the local filesystem is a map from path to file content;
the loaded-tables dictionary is an insertion-ordered association list,
matching Python dict semantics.
-/

/-- Content of a CSV file: its list of text lines, header line first. -/
structure Csv where
  lines : List String
deriving DecidableEq, Repr

/-- An in-memory table as produced by `pd.read_csv`: the header line and the
data rows. -/
structure DataFrame where
  header : String
  rows : List String
deriving DecidableEq, Repr

/-- Errors (Python exceptions) are modelled by their name. -/
abbrev Err := String

/-- The serialized form produced by `df.to_parquet`; modelled as the table
itself (the encoding is injective and otherwise opaque to this script). -/
abbrev Parquet := DataFrame

/-- Embeds `df.to_parquet(parquet_buffer, engine='pyarrow')`. -/
def to_parquet (df : DataFrame) : Parquet := df

/-- Constant `DATA_DIR` from the script. -/
def DATA_DIR : String := "../data"

/-- Constant `BUCKET_NAME` from the script. -/
def BUCKET_NAME : String := "laranjao-datalakeaws"

def url2015 : String := "https://data.boston.gov/dataset/8048697b-ad64-4bfc-b090-ee00169f2323/resource/c9509ab4-6f6d-4b97-979a-0cf2a10c922b/download/311_service_requests_2015.csv"

def url2016 : String := "https://data.boston.gov/dataset/8048697b-ad64-4bfc-b090-ee00169f2323/resource/b7ea6b1b-3ca4-4c5b-9713-6dc1db52379a/download/311_service_requests_2016.csv"

def url2017 : String := "https://data.boston.gov/dataset/8048697b-ad64-4bfc-b090-ee00169f2323/resource/30022137-709d-465e-baae-ca155b51927d/download/311_service_requests_2017.csv"

def url2018 : String := "https://data.boston.gov/dataset/8048697b-ad64-4bfc-b090-ee00169f2323/resource/2be28d90-3a90-4af1-a3f6-f28c1e25880a/download/311_service_requests_2018.csv"

def url2019 : String := "https://data.boston.gov/dataset/8048697b-ad64-4bfc-b090-ee00169f2323/resource/ea2e4696-4a2d-429c-9807-d02eb92e0222/download/311_service_requests_2019.csv"

def url2020 : String := "https://data.boston.gov/dataset/8048697b-ad64-4bfc-b090-ee00169f2323/resource/6ff6a6fd-3141-4440-a880-6f60a37fe789/download/script_105774672_20210108153400_combine.csv"

/-- Constant `FILES` from the script: the six (url, filename) pairs. -/
def FILES : List (String × String) :=
  [(url2015, "dados_2015.csv"),
   (url2016, "dados_2016.csv"),
   (url2017, "dados_2017.csv"),
   (url2018, "dados_2018.csv"),
   (url2019, "dados_2019.csv"),
   (url2020, "dados_2020.csv")]

/-- Python `str.split` with a single-character separator: splits on every
occurrence, keeping empty pieces, and always returns a non-empty list. -/
def splitSep (sep : Char) : List Char → List (List Char)
  | [] => [[]]
  | c :: cs =>
    let r := splitSep sep cs
    if c = sep then [] :: r
    else
      match r with
      | [] => [[c]]
      | t :: ts => (c :: t) :: ts

/-- Embeds line 69 of the script: `ano = filename.split("_")[-1].split(".")[0]`,
the year token of a filename. -/
def ano (filename : String) : String :=
  String.mk ((splitSep '.' ((splitSep '_' filename.data).getLastD [])).headD [])

/-- Embeds `os.path.join(DATA_DIR, filename)` for the paths this script
builds (no absolute components, no trailing separators). -/
def os_path_join (a b : String) : String := a ++ "/" ++ b

/-- The local filesystem: maps a path to the content stored there, if any. -/
def FS := String → Option Csv

/-- The filesystem at the start of a run: the data directory is empty (the
script is the only writer of `../data`). -/
def fs0 : FS := fun _ => none

/-- Writing a file: `urlretrieve` saving the downloaded content at `p`. -/
def fsWrite (fs : FS) (p : String) (c : Csv) : FS :=
  fun q => if q = p then some c else fs q

/-- The external world: what each URL serves (`none` models the download
raising an exception) and whether each object-store PUT fails (`some e`
models `put_object` raising `e`). -/
structure World where
  download : String → Option Csv
  put : String → Option Err

/-- Embeds `extract_data(url, filename)`: try to download `url` to the local
path `filename`; on any failure, print a message and return normally.
Returns the (possibly updated) filesystem and the printed line; by
construction it never propagates an error. -/
def extract_data (w : World) (fs : FS) (url filename : String) : FS × String :=
  match w.download url with
  | some content => (fsWrite fs filename content, "scraping was done -> " ++ filename)
  | none => (fs, "Houston, we have a problem in " ++ filename)

/-- Embeds `pd.read_csv(filepath)`: fails if the file is missing
(`FileNotFoundError`) or empty (`EmptyDataError`); otherwise the first line
is the header and the remaining lines are the data rows. -/
def read_csv (file : Option Csv) : Except Err DataFrame :=
  match file with
  | none => Except.error "FileNotFoundError"
  | some c =>
    match c.lines with
    | [] => Except.error "EmptyDataError"
    | h :: rows => Except.ok ⟨h, rows⟩

/-- The loaded-tables dictionary `dfs`: year label to table, in insertion
order, as a Python dict. -/
abbrev Dict := List (String × DataFrame)

/-- Python dict assignment `dfs[ano] = df`: overwrites in place if the key
exists (keeping its position), else appends. -/
def dictInsert : Dict → String → DataFrame → Dict
  | [], y, df => [(y, df)]
  | (k, v) :: rest, y, df =>
    if k = y then (k, df) :: rest else (k, v) :: dictInsert rest y df

/-- Observable steps of a pipeline run, in the order they occur. -/
inductive Event where
  | mkdir (dir : String)
  | download (filepath : String)
  | parse (filepath : String)
  | upload (key : String)
  | listBucket
deriving DecidableEq, Repr

/-- Embeds `create_data_dir(DATA_DIR)` (`os.makedirs(..., exist_ok=True)`):
its only observable effect here is the mkdir step. -/
def create_data_dir (dir : String) : Event := Event.mkdir dir

/-- Embeds `load_data(files)`: for each (url, filename) pair in order,
download to `DATA_DIR/filename` (failures caught inside `extract_data`),
then parse the local file with `read_csv` — whose failure propagates —
and store the table under the filename's year token. Returns the final
filesystem, the dictionary of tables, and the trace of steps. -/
def load_data (w : World) :
    List (String × String) → FS → Dict → Except Err (FS × Dict × List Event)
  | [], fs, dfs => Except.ok (fs, dfs, [])
  | (url, filename) :: rest, fs, dfs =>
    let filepath := os_path_join DATA_DIR filename
    let fs1 := (extract_data w fs url filepath).1
    match read_csv (fs1 filepath) with
    | Except.error e => Except.error e
    | Except.ok df =>
      match load_data w rest fs1 (dictInsert dfs (ano filename) df) with
      | Except.error e => Except.error e
      | Except.ok (fs2, dfs2, evs) =>
        Except.ok (fs2, dfs2, Event.download filepath :: Event.parse filepath :: evs)

/-- The object store (one fixed bucket): key to stored object, kept in
first-PUT order. -/
abbrev S3Store := List (String × Parquet)

/-- An object-store PUT: overwrites the value if the key exists, else adds
the key. -/
def s3put : S3Store → String → Parquet → S3Store
  | [], k, v => [(k, v)]
  | (k0, v0) :: rest, k, v =>
    if k0 = k then (k0, v) :: rest else (k0, v0) :: s3put rest k v

/-- The keys currently present in the store. -/
def s3keys (s : S3Store) : List String := s.map Prod.fst

/-- The object key used at line 111: `f"bronze/dados_{ano}.parquet"`. -/
def s3key (y : String) : String := "bronze/dados_" ++ y ++ ".parquet"

/-- Embeds `upload_to_s3(dfs, bucket_name, s3_client)`: for each dictionary
entry in order, serialize the table and PUT it at its key; a PUT failure
propagates. Returns the final store and the keys written, in order. -/
def upload_to_s3 (w : World) : Dict → S3Store → Except Err (S3Store × List String)
  | [], s3 => Except.ok (s3, [])
  | (y, df) :: rest, s3 =>
    match w.put (s3key y) with
    | some e => Except.error e
    | none =>
      match upload_to_s3 w rest (s3put s3 (s3key y) (to_parquet df)) with
      | Except.error e => Except.error e
      | Except.ok (s3f, ks) => Except.ok (s3f, s3key y :: ks)

/-- A `list_objects` response: the `Contents` entry is absent (`none`) when
the bucket holds no objects, as in S3. -/
structure ListResponse where
  contents : Option (List String)
deriving DecidableEq, Repr

/-- Embeds `s3_client.list_objects(Bucket=bucket_name)`. -/
def list_objects (s3 : S3Store) : ListResponse :=
  ⟨if s3.isEmpty then none else some (s3keys s3)⟩

/-- Embeds `response.get("Contents", [])` followed by key extraction. -/
def respContents (r : ListResponse) : List String := r.contents.getD []

/-- Embeds `list_contents(bucket_name, s3_client)`: the keys of the listing
response, defaulting to the empty list when `Contents` is absent. -/
def list_contents (s3 : S3Store) : List String := respContents (list_objects s3)

/-- The outcome of one successful run of `main()`. -/
structure RunResult where
  store : S3Store
  tables : Dict
  uploaded : List String
  listed : List String
  trace : List Event
deriving DecidableEq, Repr

/-- Embeds `main()`: create the data directory, load the tables from
`FILES`, upload them, list the bucket. `s3init` is the state of the bucket
when the run starts (empty on a first run). Only `extract_data` guards its
step; every other failure propagates out of `main'`. (Named `main` in the source; that name is reserved by Lean.) -/
def main' (w : World) (s3init : S3Store) : Except Err RunResult :=
  match load_data w FILES fs0 [] with
  | Except.error e => Except.error e
  | Except.ok (_, dfs, evs) =>
    match upload_to_s3 w dfs s3init with
    | Except.error e => Except.error e
    | Except.ok (s3, ks) =>
      Except.ok ⟨s3, dfs, ks, list_contents s3,
        create_data_dir DATA_DIR :: evs ++ ks.map Event.upload ++ [Event.listBucket]⟩


/-- A world in which every download serves a one-line (header-only) CSV and
every PUT succeeds; used to witness the run-level theorems. -/
def wtest : World := ⟨fun _ => some ⟨["h"]⟩, fun _ => none⟩

/-- The table every file of `wtest` parses to. -/
def Dtest : DataFrame := ⟨"h", []⟩

/-- The six object keys the pipeline writes, in upload order. -/
def KEYS6 : List String :=
  ["bronze/dados_2015.parquet", "bronze/dados_2016.parquet", "bronze/dados_2017.parquet",
   "bronze/dados_2018.parquet", "bronze/dados_2019.parquet", "bronze/dados_2020.parquet"]

/-- The six year tokens, in file-list order. -/
def YEARS6 : List String := ["2015", "2016", "2017", "2018", "2019", "2020"]

/-- The local paths of the six downloads, in order. -/
def PATHS6 : List String :=
  ["../data/dados_2015.csv", "../data/dados_2016.csv", "../data/dados_2017.csv",
   "../data/dados_2018.csv", "../data/dados_2019.csv", "../data/dados_2020.csv"]

/-- The result of running the pipeline in `wtest` against an empty bucket. -/
def R1 : RunResult :=
  { store := KEYS6.map (fun k => (k, Dtest))
    tables := YEARS6.map (fun y => (y, Dtest))
    uploaded := KEYS6
    listed := KEYS6
    trace := Event.mkdir "../data" ::
      (PATHS6.flatMap (fun p => [Event.download p, Event.parse p]) ++
       KEYS6.map Event.upload ++ [Event.listBucket]) }

/-- A world in which every download raises; used to witness the
error-handling theorem. -/
def wfail : World := ⟨fun _ => none, fun _ => none⟩

/-- A world serving two distinct small CSVs at two URLs; used to witness the
duplicate-year theorem. -/
def wdup : World :=
  ⟨fun u => if u = "ua" then some ⟨["x", "r1"]⟩ else some ⟨["y", "r2"]⟩,
   fun _ => none⟩

/-- Effect of one insertion on a key list: unchanged if present, appended
otherwise (shared by Python dicts and the object store). -/
def keyIns (ks : List String) (k : String) : List String :=
  if k ∈ ks then ks else ks ++ [k]

theorem s3keys_s3put (s : S3Store) (k : String) (v : Parquet) :
    s3keys (s3put s k v) = keyIns (s3keys s) k := by
  induction s with
  | nil => simp [s3put, s3keys, keyIns]
  | cons hd tl ih =>
    obtain ⟨k0, v0⟩ := hd
    by_cases h : k0 = k
    · subst h
      simp [s3put, s3keys, keyIns]
    · have h' : ¬ k = k0 := fun hh => h hh.symm
      have ih' : List.map Prod.fst (s3put tl k v) = keyIns (List.map Prod.fst tl) k := ih
      by_cases hm : k ∈ List.map Prod.fst tl <;>
        simp [s3put, s3keys, keyIns, h, h', hm, ih']

theorem dictInsert_keys (d : Dict) (y : String) (df : DataFrame) :
    (dictInsert d y df).map Prod.fst = keyIns (d.map Prod.fst) y := by
  induction d with
  | nil => simp [dictInsert, keyIns]
  | cons hd tl ih =>
    obtain ⟨k0, v0⟩ := hd
    by_cases h : k0 = y
    · subst h
      simp [dictInsert, keyIns]
    · have h' : ¬ y = k0 := fun hh => h hh.symm
      by_cases hm : y ∈ tl.map Prod.fst <;>
        simp [dictInsert, keyIns, h, h', hm] at ih ⊢ <;> simp [ih]

theorem mem_keyIns_of_mem {k k' : String} {ks : List String} (h : k ∈ ks) :
    k ∈ keyIns ks k' := by
  unfold keyIns
  split <;> simp [h]

theorem self_mem_keyIns (ks : List String) (k : String) : k ∈ keyIns ks k := by
  unfold keyIns
  split <;> simp_all

theorem mem_foldl_keyIns_init {k : String} {L : List String} {init : List String}
    (h : k ∈ init) : k ∈ L.foldl keyIns init := by
  induction L generalizing init with
  | nil => simpa using h
  | cons a tl ih => exact ih (mem_keyIns_of_mem h)

theorem mem_foldl_keyIns {k : String} {L : List String} (init : List String)
    (h : k ∈ L) : k ∈ L.foldl keyIns init := by
  induction L generalizing init with
  | nil => cases h
  | cons a tl ih =>
    simp only [List.foldl_cons]
    rcases List.mem_cons.mp h with h1 | h2
    · subst h1
      exact mem_foldl_keyIns_init (self_mem_keyIns init k)
    · exact ih (keyIns init a) h2

theorem foldl_keyIns_of_subset {L S : List String} (h : ∀ k ∈ L, k ∈ S) :
    L.foldl keyIns S = S := by
  induction L with
  | nil => rfl
  | cons a tl ih =>
    have ha : keyIns S a = S := by
      unfold keyIns
      exact if_pos (h a (List.mem_cons_self a tl))
    simp only [List.foldl_cons, ha]
    exact ih fun k hk => h k (List.mem_cons_of_mem a hk)

/-- Inversion for `upload_to_s3`: on success, the keys written are exactly
the dictionary keys through `s3key` in dictionary order, and the store keys
are the old keys with each written key inserted in order. -/
theorem upload_ok_inv {w : World} {dfs : Dict} {s s' : S3Store} {ks : List String}
    (h : upload_to_s3 w dfs s = Except.ok (s', ks)) :
    ks = dfs.map (fun p => s3key p.1) ∧
    s3keys s' = (dfs.map (fun p => s3key p.1)).foldl keyIns (s3keys s) := by
  induction dfs generalizing s s' ks with
  | nil =>
    simp [upload_to_s3] at h
    simp [h.1, h.2]
  | cons hd tl ih =>
    obtain ⟨y, df⟩ := hd
    cases hput : w.put (s3key y) with
    | some e => simp [upload_to_s3, hput] at h
    | none =>
      cases hrec : upload_to_s3 w tl (s3put s (s3key y) (to_parquet df)) with
      | error e => simp [upload_to_s3, hput, hrec] at h
      | ok pr =>
        obtain ⟨s3f, ks'⟩ := pr
        simp [upload_to_s3, hput, hrec] at h
        obtain ⟨hk, hs⟩ := ih hrec
        obtain ⟨hsf, hks⟩ := h
        subst hsf
        subst hks
        constructor
        · simp [hk]
        · simp [hs, s3keys_s3put]

/-- Inversion for `load_data`: on success, the dictionary keys are the year
tokens of the filenames inserted in list order, and the trace is, for each
pair in order, its download step followed by its parse step. -/
theorem load_ok_inv {w : World} {files : List (String × String)} {fs : FS}
    {dfs : Dict} {fs' : FS} {dfs' : Dict} {evs : List Event}
    (h : load_data w files fs dfs = Except.ok (fs', dfs', evs)) :
    dfs'.map Prod.fst = (files.map (fun p => ano p.2)).foldl keyIns (dfs.map Prod.fst) ∧
    evs = files.flatMap (fun p =>
      [Event.download (os_path_join DATA_DIR p.2), Event.parse (os_path_join DATA_DIR p.2)]) := by
  induction files generalizing fs dfs fs' dfs' evs with
  | nil =>
    simp [load_data] at h
    simp [h.2.1, ← h.2.2]
  | cons hd tl ih =>
    obtain ⟨url, filename⟩ := hd
    cases hread : read_csv ((extract_data w fs url (os_path_join DATA_DIR filename)).1
        (os_path_join DATA_DIR filename)) with
    | error e => simp [load_data, hread] at h
    | ok df =>
      cases hrec : load_data w tl (extract_data w fs url (os_path_join DATA_DIR filename)).1
          (dictInsert dfs (ano filename) df) with
      | error e => simp [load_data, hread, hrec] at h
      | ok tr =>
        obtain ⟨fs2, dfs2, evs2⟩ := tr
        simp [load_data, hread, hrec] at h
        obtain ⟨h1, h2, h3⟩ := h
        obtain ⟨hkeys, hevs⟩ := ih hrec
        constructor
        · rw [← h2, hkeys, dictInsert_keys]
          simp
        · rw [← h3, hevs]
          simp

/-- Inversion for `main'`: a successful run decomposes into a successful
load followed by a successful upload, and each field of the result is
determined by those two. -/
theorem main_ok_inv {w : World} {s3init : S3Store} {r : RunResult}
    (h : main' w s3init = Except.ok r) :
    ∃ fs dfs evs s3 ks,
      load_data w FILES fs0 [] = Except.ok (fs, dfs, evs) ∧
      upload_to_s3 w dfs s3init = Except.ok (s3, ks) ∧
      r.store = s3 ∧ r.tables = dfs ∧ r.uploaded = ks ∧
      r.listed = list_contents s3 ∧
      r.trace = create_data_dir DATA_DIR :: evs ++ ks.map Event.upload ++ [Event.listBucket] := by
  cases hload : load_data w FILES fs0 [] with
  | error e => simp [main', hload] at h
  | ok t =>
    obtain ⟨fs, dfs, evs⟩ := t
    cases hup : upload_to_s3 w dfs s3init with
    | error e => simp [main', hload, hup] at h
    | ok u =>
      obtain ⟨s3, ks⟩ := u
      simp [main', hload, hup] at h
      refine ⟨fs, dfs, evs, s3, ks, rfl, hup, ?_⟩
      simp [← h]

/-- Every file present on the local filesystem holds content that some URL
serves: the script is the only writer of the data directory. -/
def FsFromW (w : World) (fs : FS) : Prop :=
  ∀ q c, fs q = some c → ∃ u, w.download u = some c

/-- Every table in the dictionary is the parse of some downloaded CSV. -/
def DictFromW (w : World) (d : Dict) : Prop :=
  ∀ y df, (y, df) ∈ d → ∃ u c, w.download u = some c ∧ read_csv (some c) = Except.ok df

theorem fsFromW_fs0 (w : World) : FsFromW w fs0 := by
  intro q c h
  simp [fs0] at h

theorem dictFromW_nil (w : World) : DictFromW w [] := by
  intro y df h
  simp at h

theorem fsFromW_extract {w : World} {fs : FS} (hfs : FsFromW w fs) (url p : String) :
    FsFromW w (extract_data w fs url p).1 := by
  unfold extract_data
  cases hd : w.download url with
  | none => exact hfs
  | some c =>
    intro q c' hq
    simp only [fsWrite] at hq
    split at hq
    · refine ⟨url, ?_⟩
      rw [hd]
      exact congrArg some (Option.some.inj hq)
    · exact hfs q c' hq

theorem mem_dictInsert {d : Dict} {y0 : String} {df0 : DataFrame} {y : String}
    {df : DataFrame} (h : (y0, df0) ∈ dictInsert d y df) :
    (y0, df0) ∈ d ∨ df0 = df := by
  induction d with
  | nil =>
    simp [dictInsert] at h
    exact Or.inr h.2
  | cons hd tl ih =>
    obtain ⟨k, v⟩ := hd
    by_cases hk : k = y
    · subst hk
      simp [dictInsert] at h
      rcases h with ⟨h1, h2⟩ | h2
      · exact Or.inr h2
      · exact Or.inl (List.mem_cons_of_mem _ h2)
    · simp [dictInsert, hk] at h
      rcases h with ⟨h1, h2⟩ | h2
      · left
        simp [h1, h2]
      · rcases ih h2 with hm | he
        · exact Or.inl (List.mem_cons_of_mem _ hm)
        · exact Or.inr he

/-- Invariant of `load_data`: every table it returns is the parse of some
downloaded CSV (starting from a filesystem and dictionary that already
satisfy this). -/
theorem load_dictFromW {w : World} {files : List (String × String)} {fs : FS}
    {dfs : Dict} {fs' : FS} {dfs' : Dict} {evs : List Event}
    (hfs : FsFromW w fs) (hd : DictFromW w dfs)
    (h : load_data w files fs dfs = Except.ok (fs', dfs', evs)) :
    DictFromW w dfs' := by
  induction files generalizing fs dfs fs' dfs' evs with
  | nil =>
    simp [load_data] at h
    rw [← h.2.1]
    exact hd
  | cons p tl ih =>
    obtain ⟨url, filename⟩ := p
    cases hread : read_csv ((extract_data w fs url (os_path_join DATA_DIR filename)).1
        (os_path_join DATA_DIR filename)) with
    | error e => simp [load_data, hread] at h
    | ok df =>
      cases hrec : load_data w tl (extract_data w fs url (os_path_join DATA_DIR filename)).1
          (dictInsert dfs (ano filename) df) with
      | error e => simp [load_data, hread, hrec] at h
      | ok tr =>
        obtain ⟨fs2, dfs2, evs2⟩ := tr
        simp [load_data, hread, hrec] at h
        have hfs1 : FsFromW w (extract_data w fs url (os_path_join DATA_DIR filename)).1 :=
          fsFromW_extract hfs url _
        have hdf : ∃ u c, w.download u = some c ∧ read_csv (some c) = Except.ok df := by
          cases hc : (extract_data w fs url (os_path_join DATA_DIR filename)).1
              (os_path_join DATA_DIR filename) with
          | none =>
            rw [hc] at hread
            simp [read_csv] at hread
          | some c =>
            obtain ⟨u, hu⟩ := hfs1 _ _ hc
            rw [hc] at hread
            exact ⟨u, c, hu, hread⟩
        have hdict : DictFromW w (dictInsert dfs (ano filename) df) := by
          intro y0 df0 hm
          rcases mem_dictInsert hm with hmem | heq
          · exact hd y0 df0 hmem
          · subst heq
            exact hdf
        have hres := ih hfs1 hdict hrec
        rw [← h.2.1]
        exact hres

theorem read_csv_ok_len {c : Csv} {df : DataFrame}
    (h : read_csv (some c) = Except.ok df) :
    df.rows.length = c.lines.length - 1 := by
  cases hl : c.lines with
  | nil => simp [read_csv, hl] at h
  | cons a t =>
    simp [read_csv, hl] at h
    subst h
    simp

theorem anos_FILES_eval : FILES.map (fun p => ano p.2) = YEARS6 := by rfl

theorem years_s3key_eval : YEARS6.map s3key = KEYS6 := by rfl

/-- C1: for every (url, filename) pair processed by the pipeline, the key of
the object written to the object store equals `bronze/dados_{year}.parquet`,
where the year is the substring of the filename after the last underscore
and before the extension; e.g. `dados_2016.csv` yields
`bronze/dados_2016.parquet`. -/
theorem claim_C1_upload_keys (w : World) (r : RunResult)
    (h : main' w [] = Except.ok r) :
    r.uploaded = FILES.map (fun p => s3key (ano p.2)) ∧
    ano "dados_2016.csv" = "2016" ∧
    s3key (ano "dados_2016.csv") = "bronze/dados_2016.parquet" := by
  obtain ⟨fs, dfs, evs, s3, ks, hload, hup, hstore, htab, hupl, hlist, htr⟩ := main_ok_inv h
  obtain ⟨hks, hkeys⟩ := upload_ok_inv hup
  obtain ⟨hdk, hevs⟩ := load_ok_inv hload
  have hyears : dfs.map Prod.fst = YEARS6 := by
    rw [hdk]
    rfl
  have hks6 : ks = KEYS6 := by
    rw [hks, show dfs.map (fun p => s3key p.1) = (dfs.map Prod.fst).map s3key by simp,
      hyears, years_s3key_eval]
  refine ⟨?_, rfl, rfl⟩
  rw [hupl, hks6]
  rfl

/-- C2: a failed download does not propagate from the download step —
`extract_data` catches it, logs, and returns with the filesystem unchanged —
so the pipeline proceeds to parse the missing local file, and that parse
failure (like any load or upload failure) propagates uncaught and
terminates the run. -/
theorem claim_C2_error_handling (w : World) (url filename : String)
    (rest : List (String × String)) (fs : FS) (dfs : Dict)
    (hdl : w.download url = none)
    (hfs : fs (os_path_join DATA_DIR filename) = none) :
    extract_data w fs url (os_path_join DATA_DIR filename)
      = (fs, "Houston, we have a problem in " ++ os_path_join DATA_DIR filename) ∧
    load_data w ((url, filename) :: rest) fs dfs = Except.error "FileNotFoundError" ∧
    (∀ e s3init, load_data w FILES fs0 [] = Except.error e →
      main' w s3init = Except.error e) ∧
    (∀ dfs2 s3init e2 fsx evsx, load_data w FILES fs0 [] = Except.ok (fsx, dfs2, evsx) →
      upload_to_s3 w dfs2 s3init = Except.error e2 → main' w s3init = Except.error e2) := by
  refine ⟨?_, ?_, ?_, ?_⟩
  · simp [extract_data, hdl]
  · simp [load_data, extract_data, hdl, read_csv, hfs]
  · intro e s3init hl
    simp [main', hl]
  · intro dfs2 s3init e2 fsx evsx hl hu
    simp [main', hl, hu]

/-- C3: in any run in which every download, parse, and upload succeeds (a
successful `main'` against an empty bucket), the final listing returns
exactly six keys, namely `bronze/dados_{year}.parquet` for the years 2015
through 2020. -/
theorem claim_C3_listing (w : World) (r : RunResult)
    (h : main' w [] = Except.ok r) :
    r.listed.length = 6 ∧ ∀ k, k ∈ r.listed ↔ k ∈ KEYS6 := by
  obtain ⟨fs, dfs, evs, s3, ks, hload, hup, hstore, htab, hupl, hlist, htr⟩ := main_ok_inv h
  obtain ⟨hks, hkeys⟩ := upload_ok_inv hup
  obtain ⟨hdk, hevs⟩ := load_ok_inv hload
  have hyears : dfs.map Prod.fst = YEARS6 := by
    rw [hdk]
    rfl
  have hskeys : s3keys s3 = KEYS6 := by
    rw [hkeys, show dfs.map (fun p => s3key p.1) = (dfs.map Prod.fst).map s3key by simp,
      hyears, years_s3key_eval]
    rfl
  have hne : ¬ s3.isEmpty = true := by
    intro hcon
    rw [List.isEmpty_iff.mp hcon] at hskeys
    simp [s3keys, KEYS6] at hskeys
  have hlisted : r.listed = KEYS6 := by
    rw [hlist]
    unfold list_contents list_objects respContents
    rw [if_neg hne]
    simp [hskeys]
  constructor
  · rw [hlisted]
    rfl
  · intro k
    rw [hlisted]

/-- C4: in any successful run, each year label maps to exactly one table and
exactly one uploaded object — the table keys and upload keys carry no
duplicates — and no year token of the input list corresponds to two
distinct local paths or two distinct remote keys. -/
theorem claim_C4_unique (w : World) (r : RunResult)
    (h : main' w [] = Except.ok r) :
    (r.tables.map Prod.fst).Nodup ∧ r.uploaded.Nodup ∧
    (∀ p ∈ FILES, ∀ q ∈ FILES, ano p.2 = ano q.2 →
      os_path_join DATA_DIR p.2 = os_path_join DATA_DIR q.2 ∧
      s3key (ano p.2) = s3key (ano q.2)) := by
  obtain ⟨fs, dfs, evs, s3, ks, hload, hup, hstore, htab, hupl, hlist, htr⟩ := main_ok_inv h
  obtain ⟨hks, hkeys⟩ := upload_ok_inv hup
  obtain ⟨hdk, hevs⟩ := load_ok_inv hload
  have hyears : dfs.map Prod.fst = YEARS6 := by
    rw [hdk]
    rfl
  have hks6 : ks = KEYS6 := by
    rw [hks, show dfs.map (fun p => s3key p.1) = (dfs.map Prod.fst).map s3key by simp,
      hyears, years_s3key_eval]
  refine ⟨?_, ?_, ?_⟩
  · rw [htab, hyears]
    decide
  · rw [hupl, hks6]
    decide
  · decide

/-- C5: the steps of a successful run occur in the fixed order: the data
directory is created first; then, for each (url, filename) pair in list
order, its download completes before its parse and before the next pair's
download; all uploads come after every load and in upload order; the
bucket listing comes last. -/
theorem claim_C5_order (w : World) (r : RunResult)
    (h : main' w [] = Except.ok r) :
    r.trace = Event.mkdir DATA_DIR ::
      (FILES.flatMap (fun p =>
        [Event.download (os_path_join DATA_DIR p.2),
         Event.parse (os_path_join DATA_DIR p.2)]) ++
       r.uploaded.map Event.upload ++ [Event.listBucket]) := by
  obtain ⟨fs, dfs, evs, s3, ks, hload, hup, hstore, htab, hupl, hlist, htr⟩ := main_ok_inv h
  obtain ⟨hdk, hevs⟩ := load_ok_inv hload
  rw [htr, hevs, hupl]
  rfl

/-- C6: every table loaded by a successful run is the parse of a downloaded
CSV file, and its row count is that file's line count minus the one header
line. -/
theorem claim_C6_rows (w : World) (r : RunResult)
    (h : main' w [] = Except.ok r) :
    ∀ y df, (y, df) ∈ r.tables →
      ∃ u c, w.download u = some c ∧ read_csv (some c) = Except.ok df ∧
        df.rows.length = c.lines.length - 1 := by
  obtain ⟨fs, dfs, evs, s3, ks, hload, hup, hstore, htab, hupl, hlist, htr⟩ := main_ok_inv h
  have hd := load_dictFromW (fsFromW_fs0 w) (dictFromW_nil w) hload
  intro y df hm
  rw [htab] at hm
  obtain ⟨u, c, hu, hr⟩ := hd y df hm
  exact ⟨u, c, hu, hr, read_csv_ok_len hr⟩

/-- C7: the upload is not idempotence-guarded — running the pipeline a
second time against the bucket left by the first run writes to exactly the
same keys, silently overwriting, so the set of remote keys after two
successful runs equals the set after one. -/
theorem claim_C7_rerun (w : World) (r1 r2 : RunResult)
    (h1 : main' w [] = Except.ok r1)
    (h2 : main' w r1.store = Except.ok r2) :
    r2.uploaded = r1.uploaded ∧ s3keys r2.store = s3keys r1.store := by
  obtain ⟨fsa, dfsa, evsa, s3a, ksa, hloada, hupa, hstorea, htaba, hupla, hlista, htra⟩ :=
    main_ok_inv h1
  obtain ⟨fsb, dfsb, evsb, s3b, ksb, hloadb, hupb, hstoreb, htabb, huplb, hlistb, htrb⟩ :=
    main_ok_inv h2
  have h3 := hloada.symm.trans hloadb
  simp only [Except.ok.injEq, Prod.mk.injEq] at h3
  have hdfs : dfsa = dfsb := h3.2.1
  obtain ⟨hksa, hkeysa⟩ := upload_ok_inv hupa
  obtain ⟨hksb, hkeysb⟩ := upload_ok_inv hupb
  constructor
  · rw [huplb, hupla, hksa, hksb, hdfs]
  · have hsa : s3keys s3a = (dfsa.map (fun p => s3key p.1)).foldl keyIns [] := by
      rw [hkeysa]
      rfl
    rw [hstoreb, hstorea, hkeysb, ← hdfs, hstorea, hsa]
    exact foldl_keyIns_of_subset (fun k hk => mem_foldl_keyIns [] hk)

/-- C8: when the listing response has no contents entry (as for an empty
bucket), `list_contents` does not raise a missing-key error: it returns the
empty list. -/
theorem claim_C8_empty_listing (s3 : S3Store)
    (h : (list_objects s3).contents = none) :
    list_contents s3 = [] := by
  simp [list_contents, respContents, h]

/-- C9: when two input pairs yield the same year token, the table of the
later pair silently replaces the earlier one in the dictionary, so one
table is loaded and one object uploaded — strictly fewer than the two
input pairs. -/
theorem claim_C9_duplicate_years (w : World) (u1 u2 f1 f2 a1 a2 : String)
    (b1 b2 : List String)
    (hano : ano f1 = ano f2)
    (hd1 : w.download u1 = some ⟨a1 :: b1⟩)
    (hd2 : w.download u2 = some ⟨a2 :: b2⟩)
    (hput : w.put (s3key (ano f1)) = none) :
    (∃ fs evs, load_data w [(u1, f1), (u2, f2)] fs0 [] =
        Except.ok (fs, [(ano f1, ⟨a2, b2⟩)], evs)) ∧
    ([(ano f1, (⟨a2, b2⟩ : DataFrame))] : Dict).length = 1 ∧
    (∀ s3, upload_to_s3 w [(ano f1, (⟨a2, b2⟩ : DataFrame))] s3 =
      Except.ok (s3put s3 (s3key (ano f1)) (to_parquet ⟨a2, b2⟩), [s3key (ano f1)])) ∧
    1 < ([(u1, f1), (u2, f2)] : List (String × String)).length := by
  refine ⟨⟨fsWrite (fsWrite fs0 (os_path_join DATA_DIR f1) ⟨a1 :: b1⟩)
      (os_path_join DATA_DIR f2) ⟨a2 :: b2⟩,
      [Event.download (os_path_join DATA_DIR f1), Event.parse (os_path_join DATA_DIR f1),
       Event.download (os_path_join DATA_DIR f2), Event.parse (os_path_join DATA_DIR f2)],
      ?_⟩, rfl, ?_, by simp⟩
  · simp [load_data, extract_data, hd1, hd2, fsWrite, read_csv, dictInsert, hano]
  · intro s3
    simp [upload_to_s3, hput]

/-- C10: uploads happen in the same order as the input file list — the
dictionary preserves insertion order, so the objects are written for the
years 2015 through 2020 in exactly that sequence. -/
theorem claim_C10_upload_order (w : World) (r : RunResult)
    (h : main' w [] = Except.ok r) :
    r.uploaded = r.tables.map (fun p => s3key p.1) ∧ r.uploaded = KEYS6 := by
  obtain ⟨fs, dfs, evs, s3, ks, hload, hup, hstore, htab, hupl, hlist, htr⟩ := main_ok_inv h
  obtain ⟨hks, hkeys⟩ := upload_ok_inv hup
  obtain ⟨hdk, hevs⟩ := load_ok_inv hload
  have hyears : dfs.map Prod.fst = YEARS6 := by
    rw [hdk]
    rfl
  constructor
  · rw [hupl, htab, hks]
  · rw [hupl, hks, show dfs.map (fun p => s3key p.1) = (dfs.map Prod.fst).map s3key by simp,
      hyears, years_s3key_eval]

/-- Witness for C1: the concrete all-success world `wtest` runs to `R1`,
whose upload keys follow the `bronze/dados_{year}.parquet` scheme. -/
theorem claim_C1_witness :
    main' wtest [] = Except.ok R1 ∧
    (R1.uploaded = FILES.map (fun p => s3key (ano p.2)) ∧
     ano "dados_2016.csv" = "2016" ∧
     s3key (ano "dados_2016.csv") = "bronze/dados_2016.parquet") :=
  ⟨rfl, claim_C1_upload_keys wtest R1 rfl⟩

/-- Witness for C2: in `wfail` every download fails, the download step of a
concrete pair returns normally, and the whole run terminates with the parse
error. -/
theorem claim_C2_witness :
    wfail.download "u" = none ∧
    fs0 (os_path_join DATA_DIR "f.csv") = none ∧
    extract_data wfail fs0 "u" (os_path_join DATA_DIR "f.csv")
      = (fs0, "Houston, we have a problem in " ++ os_path_join DATA_DIR "f.csv") ∧
    load_data wfail [("u", "f.csv")] fs0 [] = Except.error "FileNotFoundError" ∧
    main' wfail [] = Except.error "FileNotFoundError" :=
  ⟨rfl, rfl,
   (claim_C2_error_handling wfail "u" "f.csv" [] fs0 [] rfl rfl).1,
   (claim_C2_error_handling wfail "u" "f.csv" [] fs0 [] rfl rfl).2.1,
   (claim_C2_error_handling wfail "u" "f.csv" [] fs0 [] rfl rfl).2.2.1
     "FileNotFoundError" [] rfl⟩

/-- Witness for C3 at the concrete successful run `R1`. -/
theorem claim_C3_witness :
    main' wtest [] = Except.ok R1 ∧
    (R1.listed.length = 6 ∧ ∀ k, k ∈ R1.listed ↔ k ∈ KEYS6) :=
  ⟨rfl, claim_C3_listing wtest R1 rfl⟩

/-- Witness for C4 at the concrete successful run `R1`. -/
theorem claim_C4_witness :
    main' wtest [] = Except.ok R1 ∧
    ((R1.tables.map Prod.fst).Nodup ∧ R1.uploaded.Nodup ∧
     (∀ p ∈ FILES, ∀ q ∈ FILES, ano p.2 = ano q.2 →
       os_path_join DATA_DIR p.2 = os_path_join DATA_DIR q.2 ∧
       s3key (ano p.2) = s3key (ano q.2))) :=
  ⟨rfl, claim_C4_unique wtest R1 rfl⟩

/-- Witness for C5 at the concrete successful run `R1`. -/
theorem claim_C5_witness :
    main' wtest [] = Except.ok R1 ∧
    R1.trace = Event.mkdir DATA_DIR ::
      (FILES.flatMap (fun p =>
        [Event.download (os_path_join DATA_DIR p.2),
         Event.parse (os_path_join DATA_DIR p.2)]) ++
       R1.uploaded.map Event.upload ++ [Event.listBucket]) :=
  ⟨rfl, claim_C5_order wtest R1 rfl⟩

/-- Witness for C6 at the concrete successful run `R1`. -/
theorem claim_C6_witness :
    main' wtest [] = Except.ok R1 ∧
    (∀ y df, (y, df) ∈ R1.tables →
      ∃ u c, wtest.download u = some c ∧ read_csv (some c) = Except.ok df ∧
        df.rows.length = c.lines.length - 1) :=
  ⟨rfl, claim_C6_rows wtest R1 rfl⟩

/-- Witness for C7: running `wtest` a second time against the bucket left by
the first run writes the same keys and leaves the same key set. -/
theorem claim_C7_witness :
    main' wtest [] = Except.ok R1 ∧
    main' wtest R1.store = Except.ok R1 ∧
    (R1.uploaded = R1.uploaded ∧ s3keys R1.store = s3keys R1.store) :=
  ⟨rfl, rfl, claim_C7_rerun wtest R1 R1 rfl rfl⟩

/-- Witness for C8 at the empty bucket. -/
theorem claim_C8_witness :
    (list_objects ([] : S3Store)).contents = none ∧
    list_contents ([] : S3Store) = [] :=
  ⟨rfl, claim_C8_empty_listing [] rfl⟩

/-- Witness for C9: two files whose names share the year token 2020. -/
theorem claim_C9_witness :
    ano "a_2020.csv" = ano "b_2020.csv" ∧
    wdup.download "ua" = some ⟨["x", "r1"]⟩ ∧
    wdup.download "ub" = some ⟨["y", "r2"]⟩ ∧
    wdup.put (s3key (ano "a_2020.csv")) = none ∧
    ((∃ fs evs, load_data wdup [("ua", "a_2020.csv"), ("ub", "b_2020.csv")] fs0 [] =
        Except.ok (fs, [(ano "a_2020.csv", ⟨"y", ["r2"]⟩)], evs)) ∧
     ([(ano "a_2020.csv", (⟨"y", ["r2"]⟩ : DataFrame))] : Dict).length = 1 ∧
     (∀ s3, upload_to_s3 wdup [(ano "a_2020.csv", (⟨"y", ["r2"]⟩ : DataFrame))] s3 =
       Except.ok (s3put s3 (s3key (ano "a_2020.csv")) (to_parquet ⟨"y", ["r2"]⟩),
         [s3key (ano "a_2020.csv")])) ∧
     1 < ([("ua", "a_2020.csv"), ("ub", "b_2020.csv")] : List (String × String)).length) :=
  ⟨rfl, rfl, rfl, rfl,
   claim_C9_duplicate_years wdup "ua" "ub" "a_2020.csv" "b_2020.csv" "x" "y"
     ["r1"] ["r2"] rfl rfl rfl rfl⟩

/-- Witness for C10 at the concrete successful run `R1`. -/
theorem claim_C10_witness :
    main' wtest [] = Except.ok R1 ∧
    (R1.uploaded = R1.tables.map (fun p => s3key p.1) ∧ R1.uploaded = KEYS6) :=
  ⟨rfl, claim_C10_upload_order wtest R1 rfl⟩
